import Mathlib

/-!
Shallow embedding of the ElevateAI semantic-store core
(`src/database/batch_processor.py`, `src/database/embedding_generator.py`,
`src/ai/batch_processor.py`, `src/utils/batch_processor.py`,
`src/server/routers/search.py`) together with the spec-modelled parts of
the vector database that are referenced but absent from the source tree.

Conventions:
* Python exceptions are modelled by `PyErr`; fallible calls return
  `Except PyErr α`.
* numpy float vectors are modelled as `List ℝ` where arithmetic matters
  (norms, cosine similarity) and kept polymorphic in a type `V` for the
  purely structural batching code.
* Thread pools: futures are collected by iterating the submission-order
  list (Python iterates the futures list / dict in insertion order and
  `future.result()` blocks), so completion order is irrelevant; where a
  claim is about completion order we quantify over an arbitrary
  iteration order.
-/

/-- A Python exception: either an `EmbeddingError` (from
`src/utils/exceptions.py`) or any other exception, each carrying its
`str(e)` message. -/
inductive PyErr : Type where
  | embeddingError (msg : String)
  | otherError (msg : String)
deriving DecidableEq, Repr

/-- The message `str(e)` of a Python exception. -/
def PyErr.msg : PyErr → String
  | .embeddingError m => m
  | .otherError m => m

/-- The slices `xs[i:i+bs]` for `i in range(0, len(xs), bs)`.  Both batch
processors and the ingestion loop slice their input this way.  For
`bs = 0` Python's `range` would raise `ValueError`; the callers always
pass a positive batch size, and we return `[]` in that degenerate case to
keep the function total. -/
def chunks (bs : Nat) (xs : List α) : List (List α) :=
  match xs with
  | [] => []
  | x :: rest =>
      if bs = 0 then [] else
        (x :: rest).take bs :: chunks bs ((x :: rest).drop bs)
termination_by xs.length
decreasing_by
  simp [List.length_drop]
  omega

/-- The value returned by one `embedding_func(batch)` call in
`VectorDatabaseBatchProcessor.process_embeddings_batch`: the collection
loop checks `isinstance(batch_result, list)` and either extends with a
list or appends a single value. -/
inductive EmbFuncResult (V : Type) : Type where
  | list (l : List V)
  | single (v : V)
deriving DecidableEq, Repr

/-- How one batch result is merged into `results`
(`results.extend(batch_result)` vs `results.append(batch_result)`). -/
def EmbFuncResult.toList : EmbFuncResult V → List V
  | .list l => l
  | .single v => [v]

/-- Embedding of `VectorDatabaseBatchProcessor.process_embeddings_batch`
(src/database/batch_processor.py).  Empty input returns `np.array([])`
immediately; otherwise the texts are split into slices of `batch_size`,
one future per slice is submitted, and the results are collected by
iterating the futures list in submission order, the first raising
`future.result()` propagating out. -/
def process_embeddings_batch (bs : Nat)
    (embedding_func : List String → Except PyErr (EmbFuncResult V))
    (texts : List String) : Except PyErr (List V) :=
  if texts = [] then .ok []
  else
    (chunks bs texts).foldlM
      (fun results batch => (embedding_func batch).map
        (fun r => results ++ r.toList)) []

/-- A vector database as the pair of stores the spec's invariant I2
relates: the vector index (append-only list of vectors) and the metadata
store (one record per vector id). -/
structure VectorDB (V M : Type) : Type where
  vectors : List V
  metadata : List M
deriving DecidableEq, Repr

/-- Modelled from the spec: `VectorDatabase.add_to_vectordb` — the
`IngestionPipeline.add(texts, metadatas)` of spec section 4.4 — whose file
`src/database/vector_database.py` is referenced by
`src/database/__init__.py` but absent from the source tree.  Per the
spec: the texts are embedded through the batch processor
(`process_embeddings_batch`); any sub-batch embedding failure fails the
whole add before anything is written, so the database is returned
unchanged; on success one append of all vectors is performed, then a
metadata put per id, and the assigned ids are
`range(old_size, old_size + len(texts))`. -/
def add_to_vectordb (bs : Nat)
    (embedding_func : List String → Except PyErr (EmbFuncResult V))
    (db : VectorDB V M) (texts : List String) (metas : List M) :
    Except PyErr (List Nat) × VectorDB V M :=
  match process_embeddings_batch bs embedding_func texts with
  | .error e => (.error e, db)
  | .ok vs =>
      (.ok (List.range' db.vectors.length texts.length),
       ⟨db.vectors ++ vs, db.metadata ++ metas⟩)

/-- The loop of `VectorDatabaseBatchProcessor.batch_add_to_vectordb`:
each (texts, metadata) slice is added with its own `db.add_to_vectordb`
call and the ids are accumulated; an exception propagates out of the
loop, leaving the mutations of the earlier iterations in place. -/
def batchAddGo (addOne : VectorDB V M → List String → List M →
      Except PyErr (List Nat) × VectorDB V M) :
    List (List String × List M) → VectorDB V M → List Nat →
      Except PyErr (List Nat) × VectorDB V M
  | [], db, all_ids => (.ok all_ids, db)
  | (ts, ms) :: rest, db, all_ids =>
      match addOne db ts ms with
      | (.ok batch_ids, db') => batchAddGo addOne rest db' (all_ids ++ batch_ids)
      | (.error e, db') => (.error e, db')

/-- Embedding of `VectorDatabaseBatchProcessor.batch_add_to_vectordb`
(src/database/batch_processor.py): empty input returns `[]`; otherwise
the texts and metadata are sliced into sub-batches of `bs` and each
sub-batch is committed with its own `db.add_to_vectordb` call.  The
database (whose add method is the parameter `addOne`) is threaded
explicitly. -/
def batch_add_to_vectordb
    (addOne : VectorDB V M → List String → List M →
      Except PyErr (List Nat) × VectorDB V M)
    (bs : Nat) (db : VectorDB V M) (texts : List String) (metas : List M) :
    Except PyErr (List Nat) × VectorDB V M :=
  if texts = [] then (.ok [], db)
  else batchAddGo addOne ((chunks bs texts).zip (chunks bs metas)) db []

/-- One slot of the `results` list in `BatchProcessor.process_batches`
(src/ai/batch_processor.py): initialized to `None` (`[None] * len(batches)`),
then set either to the batch's result or, when `future.result()` raised,
to the string `"Error processing batch {index}: {exc}"`. -/
inductive BatchSlot (R : Type) : Type where
  | empty
  | ok (r : R)
  | errStr (s : String)
deriving DecidableEq, Repr

/-- What `process_batches` stores at index `i`: the future for batch `i`
was submitted as `executor.submit(process_func, batch, i)`, and its
`result()` either returns the value or raises, in which case the error
string is stored at the same index. -/
def batchOutcome (process_func : List M → Nat → Except PyErr R)
    (batches : List (List M)) (i : Nat) : BatchSlot R :=
  match process_func (batches.getD i []) i with
  | .ok r => .ok r
  | .error e =>
      .errStr ("Error processing batch " ++ toString i ++ ": " ++ e.msg)

/-- The collection loop of `process_batches`: `results = [None]*n`, then
for each future (in `order`, an arbitrary enumeration of the futures
dict) the slot at the future's original index is written. -/
def gatherResults (outcome : Nat → BatchSlot R) (n : Nat)
    (order : List Nat) : List (BatchSlot R) :=
  order.foldl (fun results i => results.set i (outcome i))
    (List.replicate n .empty)

/-- Embedding of `BatchProcessor.process_batches`
(src/ai/batch_processor.py).  All batches are submitted with their index;
results are gathered into `results[index]` for each future.  Each
`future.result()` call is wrapped in its own `try/except` that stores the
error string at that index, so per-batch failures never escape; the outer
`try/except` only re-raises failures of the submission loop itself, which
the model has none of, hence the call always returns `.ok`.  `order` is
the iteration order over the futures (any enumeration of `0..n-1`,
covering the nondeterministic completion order). -/
def process_batches (process_func : List M → Nat → Except PyErr R)
    (batches : List (List M)) (order : List Nat) :
    Except PyErr (List (BatchSlot R)) :=
  .ok (gatherResults (batchOutcome process_func batches) batches.length order)

/-- The `ProcessingResult` dataclass of src/utils/batch_processor.py. -/
structure ProcessingResult (R : Type) : Type where
  success : Bool
  result : Option R := none
  error : Option PyErr := none
deriving DecidableEq, Repr

/-- Embedding of `BatchProcessor._safe_process`
(src/utils/batch_processor.py): runs the function and converts the
outcome into a `ProcessingResult` instead of letting exceptions escape. -/
def safe_process (process_func : T → Except PyErr R) (item : T) :
    ProcessingResult R :=
  match process_func item with
  | .ok r => ⟨true, some r, none⟩
  | .error e => ⟨false, none, some e⟩

/-- Embedding of `BatchProcessor.process_items`
(src/utils/batch_processor.py).  Items are submitted in slices of
`batch_size`, every submitted future being added to the one `futures`
dict; after each slice the code iterates `as_completed(futures)` — the
whole dict accumulated so far, not just the slice — and appends each
future's result to `results`.  `as_completed` yields each future of the
dict exactly once per call, in completion order; the model iterates them
in submission order, which leaves every fact about the length and
multiset of `results` unchanged. -/
def process_items (bs : Nat) (process_func : T → Except PyErr R)
    (items : List T) : List (ProcessingResult R) :=
  match items with
  | [] => []
  | _ :: _ =>
      ((chunks bs items).foldl
        (fun st batch =>
          let futures := st.1 ++ batch
          (futures, st.2 ++ futures.map (safe_process process_func)))
        (([], []) : List T × List (ProcessingResult R))).2

/-- A raw search hit as produced by the search engine and consumed by the
router: `r['id']`, `r['score']`, `r['metadata']`.  Scores are modelled as
rationals; a metadata record is an association list of string fields plus
the spec's liveness bit. -/
structure RawResult : Type where
  id : Nat
  score : ℚ
  metadata : List (String × String)
  deleted : Bool
deriving DecidableEq, Repr

/-- Candidate order of the search engine: descending score, ties broken
by lower id (spec sections 4.2 and 4.5). -/
def scoreBefore (a b : RawResult) : Prop :=
  b.score < a.score ∨ (a.score = b.score ∧ a.id ≤ b.id)

instance : DecidableRel scoreBefore := fun a b => by
  unfold scoreBefore; infer_instance

/-- Insertion step of the ranking sort. -/
def insertResult (r : RawResult) : List RawResult → List RawResult
  | [] => [r]
  | x :: xs => if scoreBefore r x then r :: x :: xs else x :: insertResult r xs

/-- Ranking sort: orders candidates by `scoreBefore`. -/
def sortResults : List RawResult → List RawResult
  | [] => []
  | x :: xs => insertResult x (sortResults xs)

/-- Modelled from the spec: `SemanticSearchEngine.search`
(src/search/semantic_search.py, imported by src/server/routers/search.py
but absent from the source tree).  Per spec section 4.5: candidates below
`threshold` and deleted records are dropped, survivors are ordered by
descending score (ties by lower id, section 4.2) and truncated to `k`. -/
def semantic_search (candidates : List RawResult) (k : Nat)
    (threshold : ℚ) : List RawResult :=
  (sortResults (candidates.filter
    (fun r => decide (threshold ≤ r.score) && !r.deleted))).take k

/-- The `SearchResultItem` response model of src/server/routers/search.py. -/
structure SearchResultItem : Type where
  id : Nat
  score : ℚ
  text : String
  metadata : List (String × String)
  rank : Nat
deriving DecidableEq, Repr

/-- Embedding of the `search` endpoint of src/server/routers/search.py:
the engine's raw hits are converted with
`for i, r in enumerate(raw): ... text=r['metadata'].get('text', ''),
rank=i+1`. -/
def search_endpoint (candidates : List RawResult) (k : Nat)
    (threshold : ℚ) : List SearchResultItem :=
  let raw := semantic_search candidates k threshold
  raw.enum.map (fun p =>
    ⟨p.2.id, p.2.score, (p.2.metadata.lookup "text").getD "",
     p.2.metadata, p.1 + 1⟩)

/-- Python-truthiness whitespace set of `str.strip()`: space, tab,
newline, vertical tab, form feed, carriage return. -/
def isPyWs (c : Char) : Bool :=
  c = ' ' || c = '\t' || c = '\n' || c = '\x0b' || c = '\x0c' || c = '\r'

/-- Model of `str.strip()` (no argument): drop leading and trailing
whitespace. -/
def pyStrip (s : String) : String :=
  ⟨((s.data.dropWhile isPyWs).reverse.dropWhile isPyWs).reverse⟩

/-- The guard `not text or not text.strip()` of
`EmbeddingGenerator.generate_embedding`: the text is empty or consists
only of whitespace. -/
def emptyOrWhitespace (text : String) : Bool :=
  text = "" || pyStrip text = ""

/-- The `**kwargs` consulted by the embedding methods
(src/database/embedding_generator.py): `kwargs.get('normalize', True)`,
`kwargs.get('batch_size', 32)`, `kwargs.get('model', ...)`. -/
structure Kwargs : Type where
  normalize : Option Bool := none
  batch_size : Option Nat := none
  model : Option String := none

/-- The OpenAI client object held in `self.openai_client`: its
`embeddings.create(model=..., input=...)` call returns `response.data`,
one embedding per input, or raises.  External to the repository. -/
structure OpenAIClient (V : Type) : Type where
  createSingle : String → Except PyErr (List V)
  createBatch : List String → Except PyErr (List V)

/-- The sentence-transformer model held in `self.sentence_transformer`:
`encode(text, normalize_embeddings=..., ...)` and its batch form (the
extra `Nat` is the `batch_size` argument), plus
`get_sentence_embedding_dimension()`.  External to the repository. -/
structure STModel (V : Type) : Type where
  encode : String → Bool → Except PyErr V
  encodeBatch : List String → Bool → Nat → Except PyErr (List V)
  dim : Nat

/-- The state of an `EmbeddingGenerator` instance after `__init__`
(src/database/embedding_generator.py): the backend fields set by
`_load_models` plus the construction-time configuration consulted by
`get_embedding_dimension` (`self.use_openai`, `self.config.get('model')`). -/
structure EmbeddingGenerator (V : Type) : Type where
  online_available : Bool
  openai_client : Option (OpenAIClient V)
  sentence_transformer : Option (STModel V)
  use_openai : Bool
  config_model : Option String

/-- The outcome of one embedding-generator method call: the returned or
raised value, the number of backend invocations it made, and the
instance state after the call. -/
structure MethodResult (A V : Type) : Type where
  result : Except PyErr A
  backendCalls : Nat
  state : EmbeddingGenerator V

/-- Embedding of `EmbeddingGenerator._generate_openai_embedding`:
`client.embeddings.create(model=..., input=text)`, then
`response.data[0].embedding` (an empty `data` raises `IndexError` inside
the `try`), normalized by `embedding / np.linalg.norm(embedding)` when
`kwargs.get('normalize', True)`; any exception is re-raised as
`EmbeddingError("OpenAI embedding failed: ...")`.  `divNorm` models the
numpy expression `x / np.linalg.norm(x)`. -/
def generate_openai_embedding (divNorm : V → V) (client : OpenAIClient V)
    (text : String) (kw : Kwargs) : Except PyErr V × Nat :=
  match client.createSingle text with
  | .error e =>
      (.error (.embeddingError ("OpenAI embedding failed: " ++ e.msg)), 1)
  | .ok [] =>
      (.error (.embeddingError
        ("OpenAI embedding failed: " ++ "list index out of range")), 1)
  | .ok (d :: _) =>
      (.ok (if kw.normalize.getD true then divNorm d else d), 1)

/-- Embedding of `EmbeddingGenerator._generate_openai_embeddings_batch`:
one `create` call for all texts, then each `data.embedding` is
normalized when `kwargs.get('normalize', True)`; any exception is
re-raised as `EmbeddingError("OpenAI batch embedding failed: ...")`. -/
def generate_openai_embeddings_batch (divNorm : V → V)
    (client : OpenAIClient V) (texts : List String) (kw : Kwargs) :
    Except PyErr (List V) × Nat :=
  match client.createBatch texts with
  | .error e =>
      (.error (.embeddingError
        ("OpenAI batch embedding failed: " ++ e.msg)), 1)
  | .ok data =>
      (.ok (data.map (fun d => if kw.normalize.getD true then divNorm d else d)), 1)

/-- Embedding of
`EmbeddingGenerator._generate_sentence_transformer_embedding`:
`encode(text, convert_to_numpy=True,
normalize_embeddings=kwargs.get('normalize', True))`; failures are
re-raised as `EmbeddingError("Sentence transformer embedding failed: ...")`. -/
def generate_st_embedding (st : STModel V) (text : String) (kw : Kwargs) :
    Except PyErr V × Nat :=
  match st.encode text (kw.normalize.getD true) with
  | .error e =>
      (.error (.embeddingError
        ("Sentence transformer embedding failed: " ++ e.msg)), 1)
  | .ok v => (.ok v, 1)

/-- Embedding of
`EmbeddingGenerator._generate_sentence_transformer_embeddings_batch`:
batch `encode` with `normalize_embeddings=kwargs.get('normalize', True)`
and `batch_size=kwargs.get('batch_size', 32)`. -/
def generate_st_embeddings_batch (st : STModel V) (texts : List String)
    (kw : Kwargs) : Except PyErr (List V) × Nat :=
  match st.encodeBatch texts (kw.normalize.getD true)
      (kw.batch_size.getD 32) with
  | .error e =>
      (.error (.embeddingError
        ("Sentence transformer batch embedding failed: " ++ e.msg)), 1)
  | .ok vs => (.ok vs, 1)

/-- The `except Exception as e: raise EmbeddingError(...)` handler shared
by `generate_embedding` and `generate_embeddings_batch`: a successful
`try` block returns its value, any exception is re-raised as an
`EmbeddingError` whose message prefixes the original.  `self` is never
assigned, so the state is returned as received. -/
def wrapResult (g : EmbeddingGenerator V) (wrapMsg : String) :
    Except PyErr A × Nat → MethodResult A V
  | (.ok v, n) => ⟨.ok v, n, g⟩
  | (.error e, n) => ⟨.error (.embeddingError (wrapMsg ++ e.msg)), n, g⟩

/-- Embedding of `EmbeddingGenerator.generate_embedding`
(src/database/embedding_generator.py): empty or whitespace-only text
raises `EmbeddingError` before the backend dispatch; otherwise the
online client is preferred (`self.online_available and
self.openai_client`), then the local model, else `EmbeddingError("No
embedding model available")`; every exception of the `try` block is
re-raised as `EmbeddingError("Embedding generation failed: ...")`. -/
def generate_embedding (divNorm : V → V) (g : EmbeddingGenerator V)
    (text : String) (kw : Kwargs) : MethodResult V V :=
  if emptyOrWhitespace text then
    ⟨.error (.embeddingError "Empty text provided for embedding"), 0, g⟩
  else
    wrapResult g "Embedding generation failed: "
      (match g.online_available, g.openai_client with
       | true, some client => generate_openai_embedding divNorm client text kw
       | _, _ =>
           match g.sentence_transformer with
           | some st => generate_st_embedding st text kw
           | none =>
               (.error (.embeddingError "No embedding model available"), 0))

/-- Embedding of `EmbeddingGenerator.generate_embeddings_batch`: an empty
list raises `EmbeddingError("No texts provided for batch embedding")`;
the dispatch and wrapping mirror `generate_embedding`, with the message
`"Batch embedding generation failed: ..."`. -/
def generate_embeddings_batch (divNorm : V → V) (g : EmbeddingGenerator V)
    (texts : List String) (kw : Kwargs) : MethodResult (List V) V :=
  match texts with
  | [] => ⟨.error (.embeddingError "No texts provided for batch embedding"),
           0, g⟩
  | _ :: _ =>
    wrapResult g "Batch embedding generation failed: "
      (match g.online_available, g.openai_client with
       | true, some client =>
           generate_openai_embeddings_batch divNorm client texts kw
       | _, _ =>
           match g.sentence_transformer with
           | some st => generate_st_embeddings_batch st texts kw
           | none =>
               (.error (.embeddingError "No embedding model available"), 0))

/-- The OpenAI dimension table of
`EmbeddingGenerator.get_embedding_dimension`, looked up with
`self.config.get('model', 'text-embedding-ada-002')` and default 1536. -/
def modelDims (m : String) : Nat :=
  if m = "text-embedding-ada-002" then 1536
  else if m = "text-embedding-3-small" then 1536
  else if m = "text-embedding-3-large" then 3072
  else 1536

/-- Embedding of `EmbeddingGenerator.get_embedding_dimension`: the local
model's dimension when present, else the OpenAI table when
`self.use_openai`, else 384. -/
def get_embedding_dimension (g : EmbeddingGenerator V) : Nat :=
  match g.sentence_transformer with
  | some st => st.dim
  | none =>
      if g.use_openai then
        modelDims (g.config_model.getD "text-embedding-ada-002")
      else 384

/-- One call on an `EmbeddingGenerator` instance, for tracking the state
across an arbitrary call sequence. -/
inductive EmbOp : Type where
  | genOne (text : String) (kw : Kwargs)
  | genBatch (texts : List String) (kw : Kwargs)
  | getDim

/-- State after one call. -/
def stepEmbOp (divNorm : V → V) (g : EmbeddingGenerator V) :
    EmbOp → EmbeddingGenerator V
  | .genOne text kw => (generate_embedding divNorm g text kw).state
  | .genBatch texts kw => (generate_embeddings_batch divNorm g texts kw).state
  | .getDim => g

/-- State after an arbitrary sequence of calls on the same instance. -/
def runEmbOps (divNorm : V → V) (g : EmbeddingGenerator V)
    (ops : List EmbOp) : EmbeddingGenerator V :=
  ops.foldl (fun st op => stepEmbOp divNorm st op) g

/-- Sum of squares of a vector's components. -/
noncomputable def sumSq (v : List ℝ) : ℝ := (v.map (fun x => x ^ 2)).sum

/-- Model of `np.linalg.norm(v)`: the Euclidean norm. -/
noncomputable def npLinalgNorm (v : List ℝ) : ℝ := Real.sqrt (sumSq v)

/-- Model of the numpy expression `v / np.linalg.norm(v)` used by the
OpenAI embedding paths. -/
noncomputable def npNormalize (v : List ℝ) : List ℝ :=
  v.map (fun x => x / npLinalgNorm v)

/-- Model of `np.dot(a, b)` on 1-d arrays: the inner product when the
shapes agree, a raised `ValueError` otherwise. -/
noncomputable def npDot (a b : List ℝ) : Except PyErr ℝ :=
  if a.length = b.length then
    .ok (((a.zip b).map (fun p => p.1 * p.2)).sum)
  else .error (.otherError "shapes not aligned")

open Classical in
/-- Embedding of `EmbeddingGenerator.calculate_similarity`
(src/database/embedding_generator.py): both norms are computed (numpy
norms never raise); if either is zero the guard returns `0.0`; otherwise
`np.dot(e1, e2) / (norm1 * norm2)` is returned, and if anything in the
`try` block raises (`np.dot` on mismatched shapes) the `except` handler
returns `0.0`. -/
noncomputable def calculate_similarity (embedding1 embedding2 : List ℝ) : ℝ :=
  let norm1 := npLinalgNorm embedding1
  let norm2 := npLinalgNorm embedding2
  if norm1 = 0 ∨ norm2 = 0 then 0
  else
    match npDot embedding1 embedding2 with
    | .ok d => d / (norm1 * norm2)
    | .error _ => 0

/-! Shared lemmas about the embedded operations. -/

theorem chunks_nil (bs : Nat) : chunks bs ([] : List α) = [] := by
  simp [chunks]

theorem chunks_cons (bs : Nat) (hbs : bs ≠ 0) (x : α) (rest : List α) :
    chunks bs (x :: rest) =
      (x :: rest).take bs :: chunks bs ((x :: rest).drop bs) := by
  rw [chunks]
  simp [hbs]

/-- Concatenating the slices `xs[i:i+bs]` gives back `xs`. -/
theorem chunks_flatten (bs : Nat) (hbs : bs ≠ 0) (xs : List α) :
    (chunks bs xs).flatten = xs := by
  generalize hn : xs.length = n
  induction n using Nat.strong_induction_on generalizing xs with
  | _ n ih =>
    match xs with
    | [] => simp [chunks]
    | x :: rest =>
      rw [chunks_cons bs hbs]
      have hlt : ((x :: rest).drop bs).length < n := by
        rw [← hn]
        simp [List.length_drop]
        omega
      rw [List.flatten_cons, ih _ hlt _ rfl, List.take_append_drop]

/-- When every sub-batch embedding succeeds with one embedding per text,
the collection fold of `process_embeddings_batch` concatenates the
sub-batch results in submission order. -/
theorem foldlM_embed_ok {V : Type}
    (f : List String → Except PyErr (EmbFuncResult V)) (e : String → V)
    (bss : List (List String))
    (hf : ∀ b ∈ bss, f b = .ok (.list (b.map e))) (acc : List V) :
    bss.foldlM
        (fun results batch => (f batch).map (fun r => results ++ r.toList))
        acc
      = .ok (acc ++ (bss.map (fun b => b.map e)).flatten) := by
  induction bss generalizing acc with
  | nil => simp; rfl
  | cons b rest ih =>
      have hb : f b = .ok (.list (b.map e)) := hf b (by simp)
      rw [List.foldlM_cons, hb]
      show rest.foldlM
          (fun results batch => (f batch).map (fun r => results ++ r.toList))
          (acc ++ (EmbFuncResult.list (b.map e)).toList)
        = .ok (acc ++ ((b :: rest).map (fun b => b.map e)).flatten)
      rw [ih (fun b1 hb1 => hf b1 (by simp [hb1]))]
      simp [EmbFuncResult.toList]

/-- If any sub-batch embedding fails, the collection fold of
`process_embeddings_batch` raises (the first failing future in
submission order propagates). -/
theorem foldlM_embed_error {V : Type}
    (f : List String → Except PyErr (EmbFuncResult V))
    (bss : List (List String)) (b : List String) (e : PyErr)
    (hb : b ∈ bss) (hf : f b = .error e) (acc : List V) :
    ∃ e1, bss.foldlM
        (fun results batch => (f batch).map (fun r => results ++ r.toList))
        acc
      = .error e1 := by
  induction bss generalizing acc with
  | nil => cases hb
  | cons b0 rest ih =>
      cases hfb : f b0 with
      | error e0 =>
          exact ⟨e0, by simp only [List.foldlM_cons, hfb, Except.map]; rfl⟩
      | ok r =>
          have hbrest : b ∈ rest := by
            rcases List.mem_cons.mp hb with h | h
            · subst h; rw [hf] at hfb; cases hfb
            · exact h
          obtain ⟨e1, h1⟩ := ih hbrest (acc ++ r.toList)
          refine ⟨e1, ?_⟩
          simp only [List.foldlM_cons, hfb, Except.map]
          exact h1

/-- Writing slots at indices not equal to `i` leaves position `i` alone. -/
theorem foldl_set_not_mem {R : Type} (outcome : Nat → BatchSlot R)
    (order : List Nat) (acc : List (BatchSlot R)) (i : Nat)
    (hi : i ∉ order) :
    (order.foldl (fun rs j => rs.set j (outcome j)) acc)[i]? = acc[i]? := by
  induction order generalizing acc with
  | nil => rfl
  | cons j rest ih =>
      have hij : j ≠ i := fun h => hi (by simp [h])
      rw [List.foldl_cons, ih (acc.set j (outcome j)) (fun h => hi (by simp [h])),
        List.getElem?_set_ne hij]

/-- Every position written during the gather holds its batch's outcome,
independently of the iteration order. -/
theorem foldl_set_mem {R : Type} (outcome : Nat → BatchSlot R)
    (order : List Nat) (acc : List (BatchSlot R)) (i : Nat)
    (hi : i ∈ order) (hlen : i < acc.length) :
    (order.foldl (fun rs j => rs.set j (outcome j)) acc)[i]?
      = some (outcome i) := by
  induction order generalizing acc with
  | nil => cases hi
  | cons j rest ih =>
      rw [List.foldl_cons]
      by_cases hrest : i ∈ rest
      · exact ih (acc.set j (outcome j)) hrest (by simpa using hlen)
      · have hij : i = j := by
          rcases List.mem_cons.mp hi with h | h
          · exact h
          · exact absurd h hrest
        subst hij
        rw [foldl_set_not_mem outcome rest _ i hrest]
        exact List.getElem?_set_eq_of_lt (outcome i) hlen

/-- Writing slots never changes the length of the results list. -/
theorem foldl_set_length {R : Type} (outcome : Nat → BatchSlot R)
    (order : List Nat) (acc : List (BatchSlot R)) :
    (order.foldl (fun rs j => rs.set j (outcome j)) acc).length
      = acc.length := by
  induction order generalizing acc with
  | nil => rfl
  | cons j rest ih => rw [List.foldl_cons, ih]; simp

theorem gatherResults_length {R : Type} (outcome : Nat → BatchSlot R)
    (n : Nat) (order : List Nat) :
    (gatherResults outcome n order).length = n := by
  unfold gatherResults
  rw [foldl_set_length]
  simp

/-- When the iteration order covers every batch index, the gathered
results hold each batch's outcome at the batch's original index. -/
theorem gatherResults_getElem {R : Type} (outcome : Nat → BatchSlot R)
    (n : Nat) (order : List Nat) (i : Nat) (hi : i ∈ order) (hin : i < n) :
    (gatherResults outcome n order)[i]? = some (outcome i) := by
  unfold gatherResults
  exact foldl_set_mem outcome order _ i hi (by simpa using hin)

/-- Membership in the insertion step. -/
theorem mem_insertResult (r y : RawResult) (l : List RawResult) :
    y ∈ insertResult r l ↔ y = r ∨ y ∈ l := by
  induction l with
  | nil => simp [insertResult]
  | cons x xs ih =>
      by_cases h : scoreBefore r x
      · simp only [insertResult, if_pos h, List.mem_cons]
      · simp only [insertResult, if_neg h, List.mem_cons, ih]
        tauto

/-- Inserting into a list sorted by descending score keeps it sorted. -/
theorem pairwise_insertResult (r : RawResult) (l : List RawResult)
    (hl : l.Pairwise (fun a b => b.score ≤ a.score)) :
    (insertResult r l).Pairwise (fun a b => b.score ≤ a.score) := by
  induction l with
  | nil => simp [insertResult]
  | cons x xs ih =>
      rcases List.pairwise_cons.mp hl with ⟨hx, hxs⟩
      by_cases h : scoreBefore r x
      · have hrx : x.score ≤ r.score := by
          rcases h with h | ⟨h, _⟩
          · exact le_of_lt h
          · exact le_of_eq h.symm
        simp only [insertResult, if_pos h]
        refine List.pairwise_cons.mpr ⟨?_, hl⟩
        intro y hy
        rcases List.mem_cons.mp hy with rfl | hy2
        · exact hrx
        · exact le_trans (hx y hy2) hrx
      · have hxr : r.score ≤ x.score :=
          le_of_not_lt (fun hlt => h (Or.inl hlt))
        simp only [insertResult, if_neg h]
        refine List.pairwise_cons.mpr ⟨?_, ih hxs⟩
        intro y hy
        rcases (mem_insertResult r y xs).mp hy with rfl | hy2
        · exact hxr
        · exact hx y hy2

/-- The ranking sort produces a list sorted by descending score. -/
theorem pairwise_sortResults (l : List RawResult) :
    (sortResults l).Pairwise (fun a b => b.score ≤ a.score) := by
  induction l with
  | nil => simp [sortResults]
  | cons x xs ih => exact pairwise_insertResult x _ ih

/-- The wrapping handler returns the instance state it was given. -/
theorem wrapResult_state (g : EmbeddingGenerator V) (wrapMsg : String)
    (inner : Except PyErr A × Nat) :
    (wrapResult g wrapMsg inner).state = g := by
  rcases inner with ⟨r, n⟩
  cases r <;> rfl

/-- The wrapping handler only ever raises `EmbeddingError`. -/
theorem wrapResult_error (g : EmbeddingGenerator V) (wrapMsg : String)
    (inner : Except PyErr A × Nat) (e : PyErr)
    (h : (wrapResult g wrapMsg inner).result = .error e) :
    ∃ m, e = .embeddingError m := by
  rcases inner with ⟨r, n⟩
  cases r with
  | error e0 =>
      exact ⟨wrapMsg ++ e0.msg, by cases h; rfl⟩
  | ok v => cases h

/-- Neither embedding method assigns to `self`: the state after a
`generate_embedding` call is the state before it. -/
theorem generate_embedding_state (divNorm : V → V) (g : EmbeddingGenerator V)
    (text : String) (kw : Kwargs) :
    (generate_embedding divNorm g text kw).state = g := by
  unfold generate_embedding
  split
  · rfl
  · exact wrapResult_state g _ _

/-- Same for `generate_embeddings_batch`. -/
theorem generate_embeddings_batch_state (divNorm : V → V)
    (g : EmbeddingGenerator V) (texts : List String) (kw : Kwargs) :
    (generate_embeddings_batch divNorm g texts kw).state = g := by
  unfold generate_embeddings_batch
  split
  · rfl
  · exact wrapResult_state g _ _

/-- A sum of squares is nonnegative. -/
theorem sumSq_nonneg (v : List ℝ) : 0 ≤ sumSq v := by
  unfold sumSq
  apply List.sum_nonneg
  intro x hx
  obtain ⟨y, _, rfl⟩ := List.mem_map.mp hx
  positivity

/-- Dividing a vector of nonzero norm by its norm yields a unit vector:
the content of the `embedding / np.linalg.norm(embedding)` lines. -/
theorem npLinalgNorm_npNormalize (v : List ℝ) (hv : npLinalgNorm v ≠ 0) :
    npLinalgNorm (npNormalize v) = 1 := by
  have hs0 : sumSq v ≠ 0 := fun h => hv (by simp [npLinalgNorm, h])
  have hspos : 0 < sumSq v := lt_of_le_of_ne (sumSq_nonneg v) (Ne.symm hs0)
  have hsq : (npLinalgNorm v) ^ 2 = sumSq v := Real.sq_sqrt (le_of_lt hspos)
  have hcomp : ((fun x : ℝ => x ^ 2) ∘ fun x => x / npLinalgNorm v)
      = fun x : ℝ => x ^ 2 * ((npLinalgNorm v ^ 2)⁻¹) := by
    funext x
    rw [Function.comp_apply, div_eq_mul_inv, mul_pow, inv_pow]
  have h1 : sumSq (npNormalize v) = sumSq v * ((npLinalgNorm v ^ 2)⁻¹) := by
    unfold sumSq npNormalize
    rw [List.map_map, hcomp,
      List.sum_map_mul_right v (fun x : ℝ => x ^ 2) ((npLinalgNorm v ^ 2)⁻¹)]
  rw [show npLinalgNorm (npNormalize v)
      = Real.sqrt (sumSq (npNormalize v)) from rfl,
    h1, hsq, mul_inv_cancel₀ hs0, Real.sqrt_one]

/-! Claim theorems. -/

/-- C10: on the empty input list, `process_embeddings_batch` returns an
empty array, for every embedding function (hence without consulting it)
and without raising, whereas `generate_embeddings_batch` raises
`EmbeddingError("No texts provided for batch embedding")` on the same
input, making zero backend calls. -/
theorem c10_empty_list_behaviour :
    (∀ (V : Type) (bs : Nat)
       (f : List String → Except PyErr (EmbFuncResult V)),
       process_embeddings_batch bs f [] = .ok []) ∧
    (∀ (V : Type) (divNorm : V → V) (g : EmbeddingGenerator V) (kw : Kwargs),
       (generate_embeddings_batch divNorm g [] kw).result
           = .error (.embeddingError "No texts provided for batch embedding")
         ∧ (generate_embeddings_batch divNorm g [] kw).backendCalls = 0) := by
  constructor
  · intro V bs f
    rfl
  · intro V divNorm g kw
    exact ⟨rfl, rfl⟩

/-- C6: the backend chosen at construction is fixed for the instance's
lifetime: an arbitrary sequence of `generate_embedding`,
`generate_embeddings_batch` and `get_embedding_dimension` calls leaves
the instance state — in particular `online_available`, `openai_client`
and `sentence_transformer` — unchanged, and `get_embedding_dimension`
returns the same value after any such sequence. -/
theorem c6_backend_fixed_for_lifetime :
    ∀ (V : Type) (divNorm : V → V) (g : EmbeddingGenerator V)
      (ops : List EmbOp),
      runEmbOps divNorm g ops = g ∧
      get_embedding_dimension (runEmbOps divNorm g ops)
        = get_embedding_dimension g := by
  intro V divNorm g ops
  have h : ∀ g1 : EmbeddingGenerator V, runEmbOps divNorm g1 ops = g1 := by
    induction ops with
    | nil => intro g1; rfl
    | cons op rest ih =>
        intro g1
        have hstep : stepEmbOp divNorm g1 op = g1 := by
          cases op with
          | genOne text kw => exact generate_embedding_state divNorm g1 text kw
          | genBatch texts kw =>
              exact generate_embeddings_batch_state divNorm g1 texts kw
          | getDim => rfl
        show (op :: rest).foldl (fun st op => stepEmbOp divNorm st op) g1 = g1
        rw [List.foldl_cons, hstep]
        exact ih g1
  exact ⟨h g, by rw [h g]⟩

/-- C9: `calculate_similarity` is total on every pair of vectors: if
either input has zero norm the guard returns 0.0; if the shapes mismatch
(`np.dot` raises) the handler returns 0.0; otherwise it returns the
cosine similarity, the division being reachable only with nonzero
norms. -/
theorem c9_similarity_total_guarded :
    ∀ e1 e2 : List ℝ,
      ((npLinalgNorm e1 = 0 ∨ npLinalgNorm e2 = 0) →
        calculate_similarity e1 e2 = 0) ∧
      (e1.length ≠ e2.length → calculate_similarity e1 e2 = 0) ∧
      (npLinalgNorm e1 ≠ 0 → npLinalgNorm e2 ≠ 0 → e1.length = e2.length →
        calculate_similarity e1 e2 =
          (((e1.zip e2).map (fun p => p.1 * p.2)).sum)
            / (npLinalgNorm e1 * npLinalgNorm e2)) := by
  intro e1 e2
  refine ⟨?_, ?_, ?_⟩
  · intro h
    simp only [calculate_similarity]
    rw [if_pos h]
  · intro h
    simp only [calculate_similarity]
    split
    · rfl
    · simp only [npDot]
      rw [if_neg h]
  · intro h1 h2 hlen
    simp only [calculate_similarity]
    rw [if_neg (by tauto)]
    simp only [npDot]
    rw [if_pos hlen]

/-- C4: empty or whitespace-only text makes `generate_embedding` raise
`EmbeddingError` with zero backend invocations, and every failure of
`generate_embedding` or `generate_embeddings_batch` reaches the caller
as an `EmbeddingError` (never any other exception, never a silently
returned value). -/
theorem c4_empty_text_and_error_wrapping :
    (∀ (V : Type) (divNorm : V → V) (g : EmbeddingGenerator V)
       (text : String) (kw : Kwargs), emptyOrWhitespace text = true →
       (generate_embedding divNorm g text kw).result
           = .error (.embeddingError "Empty text provided for embedding")
         ∧ (generate_embedding divNorm g text kw).backendCalls = 0) ∧
    (∀ (V : Type) (divNorm : V → V) (g : EmbeddingGenerator V)
       (text : String) (kw : Kwargs) (e : PyErr),
       (generate_embedding divNorm g text kw).result = .error e →
       ∃ m, e = .embeddingError m) ∧
    (∀ (V : Type) (divNorm : V → V) (g : EmbeddingGenerator V)
       (texts : List String) (kw : Kwargs) (e : PyErr),
       (generate_embeddings_batch divNorm g texts kw).result = .error e →
       ∃ m, e = .embeddingError m) := by
  refine ⟨?_, ?_, ?_⟩
  · intro V divNorm g text kw h
    unfold generate_embedding
    rw [if_pos h]
    exact ⟨rfl, rfl⟩
  · intro V divNorm g text kw e h
    unfold generate_embedding at h
    by_cases hw : emptyOrWhitespace text = true
    · rw [if_pos hw] at h
      exact ⟨"Empty text provided for embedding", by cases h; rfl⟩
    · rw [if_neg hw] at h
      exact wrapResult_error g _ _ e h
  · intro V divNorm g texts kw e h
    cases texts with
    | nil =>
        unfold generate_embeddings_batch at h
        exact ⟨"No texts provided for batch embedding", by cases h; rfl⟩
    | cons t ts =>
        unfold generate_embeddings_batch at h
        exact wrapResult_error g _ _ e h

/-- C2: batched embedding gathers by original index, not completion
order.  First, whenever the embedding function maps each sub-batch to
one embedding per text, `process_embeddings_batch` returns exactly one
embedding per input text in the original input order.  Second,
`process_batches` places each sub-batch outcome at its original batch
index for every iteration order that covers the futures. -/
theorem c2_gather_by_original_index :
    (∀ (V : Type) (bs : Nat) (e : String → V)
       (f : List String → Except PyErr (EmbFuncResult V))
       (texts : List String), 0 < bs →
       (∀ b, f b = .ok (.list (b.map e))) →
       process_embeddings_batch bs f texts = .ok (texts.map e)) ∧
    (∀ (M R : Type) (process_func : List M → Nat → Except PyErr R)
       (batches : List (List M)) (order : List Nat),
       (∀ j, j < batches.length → j ∈ order) →
       ∃ results, process_batches process_func batches order = .ok results ∧
         results.length = batches.length ∧
         ∀ i, i < batches.length →
           results[i]? = some (batchOutcome process_func batches i)) := by
  constructor
  · intro V bs e f texts hbs hf
    unfold process_embeddings_batch
    by_cases ht : texts = []
    · subst ht; rfl
    · rw [if_neg ht,
        foldlM_embed_ok f e (chunks bs texts) (fun b _ => hf b) [],
        List.nil_append]
      have hmf : (List.map (fun b => b.map e) (chunks bs texts)).flatten
          = ((chunks bs texts).flatten).map e :=
        (List.map_flatten e (chunks bs texts)).symm
      rw [hmf, chunks_flatten bs (Nat.pos_iff_ne_zero.mp hbs) texts]
  · intro M R process_func batches order hcover
    exact ⟨gatherResults (batchOutcome process_func batches)
        batches.length order,
      rfl,
      gatherResults_length _ _ _,
      fun i hi => gatherResults_getElem _ _ _ i (hcover i hi) hi⟩

/-- C7: the search response carries rank `1..n` in list order — the
`i`-th returned item (1-based) has `rank == i` — the list is ordered by
descending score and truncated to at most `k` results, and each item's
text is its metadata's `text` field, the empty string when absent. -/
theorem c7_response_ranks :
    ∀ (candidates : List RawResult) (k : Nat) (threshold : ℚ),
      (search_endpoint candidates k threshold).length ≤ k ∧
      (∀ (i : Nat) (item : SearchResultItem),
         (search_endpoint candidates k threshold)[i]? = some item →
         item.rank = i + 1 ∧
         ∃ r : RawResult,
           (semantic_search candidates k threshold)[i]? = some r ∧
           item.text = (r.metadata.lookup "text").getD "" ∧
           item.metadata = r.metadata ∧ item.score = r.score ∧
           item.id = r.id) ∧
      (∀ (i j : Nat) (a b : SearchResultItem), i < j →
         (search_endpoint candidates k threshold)[i]? = some a →
         (search_endpoint candidates k threshold)[j]? = some b →
         b.score ≤ a.score) := by
  intro candidates k threshold
  have hitem : ∀ (i : Nat) (item : SearchResultItem),
      (search_endpoint candidates k threshold)[i]? = some item →
      ∃ r : RawResult,
        (semantic_search candidates k threshold)[i]? = some r ∧
        item = ⟨r.id, r.score, (r.metadata.lookup "text").getD "",
          r.metadata, i + 1⟩ := by
    intro i item h
    unfold search_endpoint at h
    rw [List.getElem?_map, List.getElem?_enum] at h
    cases hr : (semantic_search candidates k threshold)[i]? with
    | none => rw [hr] at h; cases h
    | some r =>
        rw [hr] at h
        exact ⟨r, rfl, by cases h; rfl⟩
  have hsorted : (semantic_search candidates k threshold).Pairwise
      (fun a b : RawResult => b.score ≤ a.score) := by
    unfold semantic_search
    exact List.Pairwise.take (pairwise_sortResults _)
  refine ⟨?_, ?_, ?_⟩
  · unfold search_endpoint semantic_search
    rw [List.length_map, List.enum_length, List.length_take]
    exact min_le_left _ _
  · intro i item h
    obtain ⟨r, hr, hitem1⟩ := hitem i item h
    subst hitem1
    exact ⟨rfl, r, hr, rfl, rfl, rfl, rfl⟩
  · intro i j a b hij ha hb
    obtain ⟨ra, hra, haeq⟩ := hitem i a ha
    obtain ⟨rb, hrb, hbeq⟩ := hitem j b hb
    subst haeq
    subst hbeq
    obtain ⟨hia, hgeta⟩ := List.getElem?_eq_some.mp hra
    obtain ⟨hib, hgetb⟩ := List.getElem?_eq_some.mp hrb
    have := List.pairwise_iff_getElem.mp hsorted i j hia hib hij
    rw [hgeta, hgetb] at this
    exact this

/-- Dispatch of `generate_embedding` on an online instance: nonempty text
goes to the OpenAI path, wrapped by the shared handler. -/
theorem generate_embedding_online (divNorm : V → V)
    (client : OpenAIClient V) (stf : Option (STModel V)) (uo : Bool)
    (cm : Option String) (text : String) (kw : Kwargs)
    (hw : emptyOrWhitespace text = false) :
    generate_embedding divNorm ⟨true, some client, stf, uo, cm⟩ text kw
      = wrapResult ⟨true, some client, stf, uo, cm⟩
          "Embedding generation failed: "
          (generate_openai_embedding divNorm client text kw) := by
  unfold generate_embedding
  rw [if_neg (by simp [hw])]

/-- Dispatch of `generate_embedding` on a local-only instance. -/
theorem generate_embedding_local (divNorm : V → V) (st : STModel V)
    (cl : Option (OpenAIClient V)) (uo : Bool) (cm : Option String)
    (text : String) (kw : Kwargs) (hw : emptyOrWhitespace text = false) :
    generate_embedding divNorm ⟨false, cl, some st, uo, cm⟩ text kw
      = wrapResult ⟨false, cl, some st, uo, cm⟩
          "Embedding generation failed: "
          (generate_st_embedding st text kw) := by
  unfold generate_embedding
  rw [if_neg (by simp [hw])]

/-- Dispatch of `generate_embeddings_batch` on an online instance. -/
theorem generate_embeddings_batch_online (divNorm : V → V)
    (client : OpenAIClient V) (stf : Option (STModel V)) (uo : Bool)
    (cm : Option String) (t0 : String) (ts : List String) (kw : Kwargs) :
    generate_embeddings_batch divNorm ⟨true, some client, stf, uo, cm⟩
        (t0 :: ts) kw
      = wrapResult ⟨true, some client, stf, uo, cm⟩
          "Batch embedding generation failed: "
          (generate_openai_embeddings_batch divNorm client (t0 :: ts) kw) :=
  rfl

/-- Dispatch of `generate_embeddings_batch` on a local-only instance. -/
theorem generate_embeddings_batch_local (divNorm : V → V) (st : STModel V)
    (cl : Option (OpenAIClient V)) (uo : Bool) (cm : Option String)
    (t0 : String) (ts : List String) (kw : Kwargs) :
    generate_embeddings_batch divNorm ⟨false, cl, some st, uo, cm⟩
        (t0 :: ts) kw
      = wrapResult ⟨false, cl, some st, uo, cm⟩
          "Batch embedding generation failed: "
          (generate_st_embeddings_batch st (t0 :: ts) kw) :=
  rfl

/-- A successful OpenAI single-embedding call returns the (by default)
normalized first data entry. -/
theorem generate_openai_embedding_ok (divNorm : V → V)
    (client : OpenAIClient V) (text : String) (kw : Kwargs) (d : V)
    (ds : List V) (h : client.createSingle text = .ok (d :: ds)) :
    generate_openai_embedding divNorm client text kw
      = (.ok (if kw.normalize.getD true then divNorm d else d), 1) := by
  unfold generate_openai_embedding
  rw [h]

/-- A successful OpenAI batch call returns every data entry, normalized
by default. -/
theorem generate_openai_embeddings_batch_ok (divNorm : V → V)
    (client : OpenAIClient V) (texts : List String) (kw : Kwargs)
    (data : List V) (h : client.createBatch texts = .ok data) :
    generate_openai_embeddings_batch divNorm client texts kw
      = (.ok (data.map
          (fun d => if kw.normalize.getD true then divNorm d else d)), 1) := by
  unfold generate_openai_embeddings_batch
  rw [h]

/-- A successful sentence-transformer encode call returns the encoded
vector unchanged. -/
theorem generate_st_embedding_ok (st : STModel V) (text : String)
    (kw : Kwargs) (v : V)
    (h : st.encode text (kw.normalize.getD true) = .ok v) :
    generate_st_embedding st text kw = (.ok v, 1) := by
  unfold generate_st_embedding
  rw [h]

/-- A successful sentence-transformer batch encode call returns the
encoded vectors unchanged. -/
theorem generate_st_embeddings_batch_ok (st : STModel V)
    (texts : List String) (kw : Kwargs) (vs : List V)
    (h : st.encodeBatch texts (kw.normalize.getD true)
        (kw.batch_size.getD 32) = .ok vs) :
    generate_st_embeddings_batch st texts kw = (.ok vs, 1) := by
  unfold generate_st_embeddings_batch
  rw [h]

/-- C5: with default arguments (`normalize` not overridden) every vector
returned has unit L2 norm in both paths.  In the OpenAI paths the
normalization is performed by the code itself
(`embedding / np.linalg.norm(embedding)`), so a unit vector results
whenever the raw API vector is nonzero; in the local path the code
passes `normalize_embeddings=True` by default, so under the
sentence-transformer contract (encode with the flag set returns unit
vectors) the returned vectors are unit as well. -/
theorem c5_unit_norm_default :
    (∀ (g : EmbeddingGenerator (List ℝ)) (client : OpenAIClient (List ℝ))
       (text : String) (d : List ℝ) (ds : List (List ℝ)),
       g.online_available = true → g.openai_client = some client →
       emptyOrWhitespace text = false →
       client.createSingle text = .ok (d :: ds) → npLinalgNorm d ≠ 0 →
       (generate_embedding npNormalize g text {}).result
           = .ok (npNormalize d)
         ∧ npLinalgNorm (npNormalize d) = 1) ∧
    (∀ (g : EmbeddingGenerator (List ℝ)) (client : OpenAIClient (List ℝ))
       (t0 : String) (ts : List String) (data : List (List ℝ)),
       g.online_available = true → g.openai_client = some client →
       client.createBatch (t0 :: ts) = .ok data →
       (∀ d ∈ data, npLinalgNorm d ≠ 0) →
       (generate_embeddings_batch npNormalize g (t0 :: ts) {}).result
           = .ok (data.map npNormalize)
         ∧ ∀ w ∈ data.map npNormalize, npLinalgNorm w = 1) ∧
    (∀ (g : EmbeddingGenerator (List ℝ)) (st : STModel (List ℝ))
       (text : String) (v : List ℝ),
       g.online_available = false → g.sentence_transformer = some st →
       emptyOrWhitespace text = false →
       (∀ t w, st.encode t true = .ok w → npLinalgNorm w = 1) →
       st.encode text true = .ok v →
       (generate_embedding npNormalize g text {}).result = .ok v
         ∧ npLinalgNorm v = 1) ∧
    (∀ (g : EmbeddingGenerator (List ℝ)) (st : STModel (List ℝ))
       (t0 : String) (ts : List String) (vs : List (List ℝ)),
       g.online_available = false → g.sentence_transformer = some st →
       (∀ l ws, st.encodeBatch l true 32 = .ok ws →
          ∀ w ∈ ws, npLinalgNorm w = 1) →
       st.encodeBatch (t0 :: ts) true 32 = .ok vs →
       (generate_embeddings_batch npNormalize g (t0 :: ts) {}).result = .ok vs
         ∧ ∀ w ∈ vs, npLinalgNorm w = 1) := by
  refine ⟨?_, ?_, ?_, ?_⟩
  · intro g client text d ds hon hcl hw hcreate hnorm
    obtain ⟨av, cl, stf, uo, cm⟩ := g
    simp only at hon hcl
    subst hon
    subst hcl
    rw [generate_embedding_online npNormalize client stf uo cm text {} hw,
      generate_openai_embedding_ok npNormalize client text {} d ds hcreate]
    exact ⟨rfl, npLinalgNorm_npNormalize d hnorm⟩
  · intro g client t0 ts data hon hcl hcreate hnorm
    obtain ⟨av, cl, stf, uo, cm⟩ := g
    simp only at hon hcl
    subst hon
    subst hcl
    rw [generate_embeddings_batch_online npNormalize client stf uo cm t0 ts {},
      generate_openai_embeddings_batch_ok npNormalize client (t0 :: ts) {}
        data hcreate]
    constructor
    · rfl
    · intro w hw
      obtain ⟨d, hd, rfl⟩ := List.mem_map.mp hw
      exact npLinalgNorm_npNormalize d (hnorm d hd)
  · intro g st text v hon hst hw hcontract hencode
    obtain ⟨av, cl, stf, uo, cm⟩ := g
    simp only at hon hst
    subst hon
    subst hst
    rw [generate_embedding_local npNormalize st cl uo cm text {} hw,
      generate_st_embedding_ok st text {} v hencode]
    exact ⟨rfl, hcontract text v hencode⟩
  · intro g st t0 ts vs hon hst hcontract hencode
    obtain ⟨av, cl, stf, uo, cm⟩ := g
    simp only at hon hst
    subst hon
    subst hst
    rw [generate_embeddings_batch_local npNormalize st cl uo cm t0 ts {},
      generate_st_embeddings_batch_ok st (t0 :: ts) {} vs hencode]
    exact ⟨rfl, hcontract (t0 :: ts) vs hencode⟩

/-- A failing embedding makes `add_to_vectordb` return the error and the
untouched database. -/
theorem add_to_vectordb_error (bs : Nat)
    (f : List String → Except PyErr (EmbFuncResult V))
    (db : VectorDB V M) (texts : List String) (metas : List M) (e : PyErr)
    (h : process_embeddings_batch bs f texts = .error e) :
    add_to_vectordb bs f db texts metas = (.error e, db) := by
  unfold add_to_vectordb
  rw [h]

/-- C1 (amended): a single add is atomic — when any sub-batch embedding
fails, `process_embeddings_batch` raises, `add_to_vectordb` returns the
error and the database exactly as it was — and `batch_add_to_vectordb`
leaves the database unchanged when the failing sub-batch is the first;
for a later failing sub-batch the earlier sub-batches remain committed
by their own add calls. -/
theorem c1_single_add_atomic :
    (∀ (V M : Type) (bs : Nat)
       (f : List String → Except PyErr (EmbFuncResult V))
       (db : VectorDB V M) (texts : List String) (metas : List M)
       (b : List String) (e : PyErr),
       b ∈ chunks bs texts → f b = .error e →
       (∃ e1, (add_to_vectordb bs f db texts metas).1 = .error e1) ∧
       (add_to_vectordb bs f db texts metas).2 = db) ∧
    (∀ (V M : Type) (bs innerBs : Nat)
       (f : List String → Except PyErr (EmbFuncResult V))
       (db : VectorDB V M) (texts : List String) (metas : List M)
       (e : PyErr), 0 < bs → texts ≠ [] → metas ≠ [] →
       (add_to_vectordb innerBs f db (texts.take bs) (metas.take bs)).1
           = .error e →
       batch_add_to_vectordb (add_to_vectordb innerBs f) bs db texts metas
         = (.error e, db)) := by
  constructor
  · intro V M bs f db texts metas b e hb hf
    have htne : texts ≠ [] := by
      intro h
      subst h
      rw [chunks_nil] at hb
      cases hb
    have hpe : ∃ e1, process_embeddings_batch bs f texts = .error e1 := by
      unfold process_embeddings_batch
      rw [if_neg htne]
      exact foldlM_embed_error f _ b e hb hf []
    obtain ⟨e1, he1⟩ := hpe
    rw [add_to_vectordb_error bs f db texts metas e1 he1]
    exact ⟨⟨e1, rfl⟩, rfl⟩
  · intro V M bs innerBs f db texts metas e hbs htne hmne hadd
    obtain ⟨x, rest, rfl⟩ : ∃ x rest, texts = x :: rest := by
      cases texts with
      | nil => exact absurd rfl htne
      | cons x rest => exact ⟨x, rest, rfl⟩
    obtain ⟨m, ms, rfl⟩ : ∃ m ms, metas = m :: ms := by
      cases metas with
      | nil => exact absurd rfl hmne
      | cons m ms => exact ⟨m, ms, rfl⟩
    have hproc : process_embeddings_batch innerBs f ((x :: rest).take bs)
        = .error e := by
      unfold add_to_vectordb at hadd
      cases hp : process_embeddings_batch innerBs f ((x :: rest).take bs) with
      | ok vs => rw [hp] at hadd; cases hadd
      | error e1 => rw [hp] at hadd; cases hadd; rfl
    have hpair := add_to_vectordb_error innerBs f db ((x :: rest).take bs)
      ((m :: ms).take bs) e hproc
    unfold batch_add_to_vectordb
    rw [if_neg (by simp),
      chunks_cons bs (Nat.pos_iff_ne_zero.mp hbs) x rest,
      chunks_cons bs (Nat.pos_iff_ne_zero.mp hbs) m ms,
      List.zip_cons_cons]
    simp only [batchAddGo, hpair]

/-- Embedding function used for the counterexample below: embedding the
sub-batch `["b"]` fails, every other sub-batch succeeds with one zero
vector per text. -/
def embedFailB : List String → Except PyErr (EmbFuncResult Int) :=
  fun b =>
    if b = ["b"] then .error (.otherError "boom")
    else .ok (.list (b.map (fun _ => (0 : Int))))

/-- The empty database used for the counterexample below. -/
def dbEmpty : VectorDB Int String := ⟨[], []⟩

/-- C1 counterexample: with batch size 1, two texts and an embedding
function failing on the second sub-batch, `batch_add_to_vectordb`
raises, yet the index holds one vector and the metadata store one record
afterwards, although both were empty before the call: the claim's
"index size and metadata count unchanged for every position of the
failing sub-batch" fails at position 1. -/
theorem c1_counterexample :
    batch_add_to_vectordb (add_to_vectordb 32 embedFailB) 1 dbEmpty
        ["a", "b"] ["m1", "m2"]
      = (.error (.otherError "boom"), ⟨[(0 : Int)], ["m1"]⟩) ∧
    dbEmpty.vectors.length = 0 ∧ dbEmpty.metadata.length = 0 ∧
    (⟨[(0 : Int)], ["m1"]⟩ : VectorDB Int String).vectors.length = 1 ∧
    (⟨[(0 : Int)], ["m1"]⟩ : VectorDB Int String).metadata.length = 1 := by
  refine ⟨?_, rfl, rfl, rfl, rfl⟩
  simp [batch_add_to_vectordb, chunks, batchAddGo, add_to_vectordb,
    process_embeddings_batch, embedFailB, dbEmpty, EmbFuncResult.toList,
    Except.map]

/-- The norm of the concrete vector `[1, 0]` is 1. -/
theorem npLinalgNorm_one_zero : npLinalgNorm [(1 : ℝ), 0] = 1 := by
  unfold npLinalgNorm sumSq
  norm_num

/-- The norm of the concrete vector `[1]` is 1. -/
theorem npLinalgNorm_one : npLinalgNorm [(1 : ℝ)] = 1 := by
  unfold npLinalgNorm sumSq
  norm_num

/-- C3 counterexample: both cited functions convert a raised underlying
error into a returned value.  `calculate_similarity [1,0] [1]` hits the
raising `np.dot` (both norms are nonzero, so the zero-guard is not the
cause) and returns the default `0.0` instead of raising; and
`process_batches` over one batch whose worker raises returns normally
(`.ok`), with the error string in the slot, instead of raising. -/
theorem c3_counterexample :
    calculate_similarity [(1 : ℝ), 0] [(1 : ℝ)] = 0 ∧
    npLinalgNorm [(1 : ℝ), 0] ≠ 0 ∧ npLinalgNorm [(1 : ℝ)] ≠ 0 ∧
    process_batches
        (fun (_ : List Nat) (_ : Nat)
          => (.error (.otherError "boom") : Except PyErr Nat)) [[0]] [0]
      = .ok [.errStr "Error processing batch 0: boom"] := by
  refine ⟨?_, ?_, ?_, ?_⟩
  · simp only [calculate_similarity]
    split
    · rfl
    · simp only [npDot]
      rw [if_neg (by norm_num)]
  · rw [npLinalgNorm_one_zero]; exact one_ne_zero
  · rw [npLinalgNorm_one]; exact one_ne_zero
  · rfl

/-- C3 (amended): per-call failures are converted, not surfaced.  When
its `try` block raises — e.g. `np.dot` on mismatched shapes —
`calculate_similarity` returns the default `0.0`; and when a batch's
worker raises, `process_batches` stores the string
`"Error processing batch {i}: {err}"` at that batch's original index
and returns normally. -/
theorem c3_failure_becomes_default :
    (∀ e1 e2 : List ℝ, e1.length ≠ e2.length →
       calculate_similarity e1 e2 = 0) ∧
    (∀ (M R : Type) (process_func : List M → Nat → Except PyErr R)
       (batches : List (List M)) (order : List Nat) (i : Nat) (e : PyErr),
       i < batches.length → i ∈ order →
       process_func (batches.getD i []) i = .error e →
       ∃ results, process_batches process_func batches order = .ok results ∧
         results[i]? = some (.errStr
           ("Error processing batch " ++ toString i ++ ": " ++ e.msg))) := by
  constructor
  · intro e1 e2 h
    simp only [calculate_similarity]
    split
    · rfl
    · simp only [npDot]
      rw [if_neg h]
  · intro M R process_func batches order i e hi hord hpf
    refine ⟨gatherResults (batchOutcome process_func batches)
        batches.length order, rfl, ?_⟩
    rw [gatherResults_getElem _ _ _ i hord hi]
    unfold batchOutcome
    rw [hpf]

/-- C8: evaluating `process_items` on 11 items with the default batch
size 10 yields 21 `ProcessingResult`s, not 11: after the second slice is
submitted, the loop iterates `as_completed` over the whole futures dict
again, re-appending the first ten results. -/
theorem c8_duplicated_results :
    (process_items 10 (fun _ : Unit => (.ok 0 : Except PyErr Nat))
        (List.replicate 11 ())).length = 21 ∧
    (List.replicate 11 ()).length = 11 := by
  constructor
  · simp [process_items, chunks, List.replicate, safe_process]
  · simp

/-- Witness instance: an online generator whose API client always
fails. -/
def gOnlineFail : EmbeddingGenerator Nat :=
  ⟨true,
   some ⟨fun _ => .error (.otherError "api down"),
         fun _ => .error (.otherError "api down")⟩,
   none, true, none⟩

/-- Witness for C4 at concrete inputs: whitespace text raises the empty
text `EmbeddingError` with zero backend calls, and both a failing single
call and a failing batch call surface `EmbeddingError`s. -/
theorem c4_witness :
    emptyOrWhitespace "  " = true ∧
    ((generate_embedding (fun v : Nat => v) gOnlineFail "  " {}).result
        = .error (.embeddingError "Empty text provided for embedding")
      ∧ (generate_embedding (fun v : Nat => v) gOnlineFail "  " {}).backendCalls
        = 0) ∧
    (∃ m, (PyErr.embeddingError
        "Embedding generation failed: OpenAI embedding failed: api down")
      = .embeddingError m) ∧
    (∃ m, (PyErr.embeddingError
        "Batch embedding generation failed: OpenAI batch embedding failed: api down")
      = .embeddingError m) := by
  refine ⟨rfl, ?_, ?_, ?_⟩
  · exact c4_empty_text_and_error_wrapping.1 Nat (fun v => v) gOnlineFail
      "  " {} rfl
  · exact c4_empty_text_and_error_wrapping.2.1 Nat (fun v => v) gOnlineFail
      "hi" {} _ rfl
  · exact c4_empty_text_and_error_wrapping.2.2 Nat (fun v => v) gOnlineFail
      ["hi"] {} _ rfl

/-- Witness for C2 at concrete inputs: three texts in sub-batches of two
come back in input order, and a two-batch parallel run gathered in
reversed completion order still stores each outcome at its original
index. -/
theorem c2_witness :
    process_embeddings_batch 2
        (fun b => .ok (.list (b.map String.length))) ["a", "bb", "ccc"]
      = .ok [1, 2, 3] ∧
    (∃ results, process_batches
          (fun (b : List Nat) (i : Nat) =>
            (.ok (b.sum + i) : Except PyErr Nat)) [[1], [2]] [1, 0]
        = .ok results ∧
      results.length = 2 ∧
      ∀ i, i < 2 → results[i]? = some (batchOutcome
        (fun (b : List Nat) (i : Nat) =>
          (.ok (b.sum + i) : Except PyErr Nat)) [[1], [2]] i)) := by
  constructor
  · have h := c2_gather_by_original_index.1 Nat 2 String.length
      (fun b => .ok (.list (b.map String.length))) ["a", "bb", "ccc"]
      (by decide) (fun b => rfl)
    rw [h]
    rfl
  · exact c2_gather_by_original_index.2 Nat Nat
      (fun b i => .ok (b.sum + i)) [[1], [2]] [1, 0] (by decide)

/-- Witness for C9 at concrete inputs: a zero-norm argument, a shape
mismatch, and a genuine cosine computation. -/
theorem c9_witness :
    calculate_similarity [] [(1 : ℝ)] = 0 ∧
    calculate_similarity [(1 : ℝ), 0] [(1 : ℝ)] = 0 ∧
    calculate_similarity [(1 : ℝ)] [(1 : ℝ)]
      = ((([(1 : ℝ)].zip [(1 : ℝ)]).map (fun p => p.1 * p.2)).sum)
        / (npLinalgNorm [(1 : ℝ)] * npLinalgNorm [(1 : ℝ)]) := by
  refine ⟨?_, ?_, ?_⟩
  · exact (c9_similarity_total_guarded [] [1]).1
      (Or.inl (by unfold npLinalgNorm sumSq; norm_num))
  · exact (c9_similarity_total_guarded [1, 0] [1]).2.1 (by norm_num)
  · exact (c9_similarity_total_guarded [1] [1]).2.2
      (by rw [npLinalgNorm_one]; exact one_ne_zero)
      (by rw [npLinalgNorm_one]; exact one_ne_zero) rfl

/-- Witness for C3 (amended) at concrete inputs. -/
theorem c3_witness :
    calculate_similarity [(2 : ℝ)] [] = 0 ∧
    ∃ results, process_batches
        (fun (_ : List Nat) (_ : Nat) =>
          (.error (.otherError "x") : Except PyErr Nat)) [[5]] [0]
      = .ok results ∧
      results[0]? = some (.errStr ("Error processing batch "
        ++ toString 0 ++ ": " ++ (PyErr.otherError "x").msg)) := by
  constructor
  · exact c3_failure_becomes_default.1 [2] [] (by decide)
  · exact c3_failure_becomes_default.2 Nat Nat
      (fun _ _ => .error (.otherError "x")) [[5]] [0] 0 (.otherError "x")
      (by decide) (by decide) rfl

/-- Witness for C1 (amended) at concrete inputs: a failing sub-batch
means the single add returns an error and the untouched database, and a
failing first sub-batch leaves `batch_add_to_vectordb`'s database
unchanged. -/
theorem c1_witness :
    ((∃ e1, (add_to_vectordb 1 embedFailB dbEmpty
          ["a", "b"] ["m1", "m2"]).1 = .error e1) ∧
      (add_to_vectordb 1 embedFailB dbEmpty ["a", "b"] ["m1", "m2"]).2
        = dbEmpty) ∧
    batch_add_to_vectordb (add_to_vectordb 32 embedFailB) 1 dbEmpty
        ["b", "a"] ["m2", "m1"]
      = (.error (.otherError "boom"), dbEmpty) := by
  constructor
  · exact c1_single_add_atomic.1 Int String 1 embedFailB dbEmpty
      ["a", "b"] ["m1", "m2"] ["b"] (.otherError "boom")
      (by simp [chunks]) rfl
  · exact c1_single_add_atomic.2 Int String 1 32 embedFailB dbEmpty
      ["b", "a"] ["m2", "m1"] (.otherError "boom")
      (by decide) (by decide) (by decide)
      (by simp [add_to_vectordb, process_embeddings_batch, chunks,
        embedFailB, Except.map, EmbFuncResult.toList])

/-- Witness client: the API returns the raw (non-unit) vector `[3, 4]`. -/
def clientW : OpenAIClient (List ℝ) :=
  ⟨fun _ => .ok [[3, 4]], fun _ => .ok [[3, 4]]⟩

/-- Witness sentence-transformer: encodes everything to the unit vector
`[1, 0]`. -/
def stW : STModel (List ℝ) :=
  ⟨fun _ _ => .ok [1, 0], fun _ _ _ => .ok [[1, 0]], 3⟩

/-- Witness instance: online backend with `clientW`. -/
def gOnlineW : EmbeddingGenerator (List ℝ) :=
  ⟨true, some clientW, none, true, none⟩

/-- Witness instance: local backend with `stW`. -/
def gLocalW : EmbeddingGenerator (List ℝ) :=
  ⟨false, none, some stW, false, none⟩

/-- The norm of the concrete vector `[3, 4]` is 5. -/
theorem npLinalgNorm_three_four : npLinalgNorm [(3 : ℝ), 4] = 5 := by
  unfold npLinalgNorm sumSq
  have h25 : (List.map (fun x : ℝ => x ^ 2) [3, 4]).sum = 5 ^ 2 := by
    norm_num
  rw [h25]
  exact Real.sqrt_sq (by norm_num)

/-- Witness for C5 at concrete inputs: all four paths return unit
vectors under default arguments. -/
theorem c5_witness :
    ((generate_embedding npNormalize gOnlineW "hi" {}).result
        = .ok (npNormalize [3, 4])
      ∧ npLinalgNorm (npNormalize [3, 4]) = 1) ∧
    ((generate_embeddings_batch npNormalize gOnlineW ["hi"] {}).result
        = .ok ([[3, 4]].map npNormalize)
      ∧ ∀ w ∈ [[(3 : ℝ), 4]].map npNormalize, npLinalgNorm w = 1) ∧
    ((generate_embedding npNormalize gLocalW "hi" {}).result
        = .ok [1, 0]
      ∧ npLinalgNorm [(1 : ℝ), 0] = 1) ∧
    ((generate_embeddings_batch npNormalize gLocalW ["hi"] {}).result
        = .ok [[1, 0]]
      ∧ ∀ w ∈ [[(1 : ℝ), 0]], npLinalgNorm w = 1) := by
  have h34 : npLinalgNorm [(3 : ℝ), 4] ≠ 0 := by
    rw [npLinalgNorm_three_four]; norm_num
  have hstc : ∀ (t : String) (w : List ℝ),
      stW.encode t true = .ok w → npLinalgNorm w = 1 := by
    intro t w h
    injection h with h1
    rw [← h1]
    exact npLinalgNorm_one_zero
  have hstcb : ∀ (l : List String) (ws : List (List ℝ)),
      stW.encodeBatch l true 32 = .ok ws →
      ∀ w ∈ ws, npLinalgNorm w = 1 := by
    intro l ws h w hw
    injection h with h1
    rw [← h1] at hw
    rcases List.mem_singleton.mp hw with rfl
    exact npLinalgNorm_one_zero
  have hdata : ∀ d ∈ [[(3 : ℝ), 4]], npLinalgNorm d ≠ 0 := by
    intro d hd
    rcases List.mem_singleton.mp hd with rfl
    exact h34
  refine ⟨?_, ?_, ?_, ?_⟩
  · exact c5_unit_norm_default.1 gOnlineW clientW "hi" [3, 4] []
      rfl rfl rfl rfl h34
  · exact c5_unit_norm_default.2.1 gOnlineW clientW "hi" [] [[3, 4]]
      rfl rfl rfl hdata
  · exact c5_unit_norm_default.2.2.1 gLocalW stW "hi" [1, 0]
      rfl rfl rfl hstc rfl
  · exact c5_unit_norm_default.2.2.2 gLocalW stW "hi" [] [[1, 0]]
      rfl rfl hstcb rfl

/-- Witness search candidate with a `text` metadata field. -/
def candA : RawResult := ⟨1, 1, [("text", "hello")], false⟩

/-- Witness search candidate without metadata. -/
def candB : RawResult := ⟨2, 2, [], false⟩

/-- Witness for C7 at concrete inputs: two candidates come back ordered
`candB` (score 2, rank 1) before `candA` (score 1, rank 2), with
texts read from the `text` metadata field. -/
theorem c7_witness :
    (search_endpoint [candA, candB] 5 0).length ≤ 5 ∧
    ((⟨2, 2, "", [], 1⟩ : SearchResultItem).rank = 0 + 1 ∧
      ∃ r, (semantic_search [candA, candB] 5 0)[0]? = some r ∧
        (⟨2, 2, "", [], 1⟩ : SearchResultItem).text
          = (r.metadata.lookup "text").getD "" ∧
        (⟨2, 2, "", [], 1⟩ : SearchResultItem).metadata = r.metadata ∧
        (⟨2, 2, "", [], 1⟩ : SearchResultItem).score = r.score ∧
        (⟨2, 2, "", [], 1⟩ : SearchResultItem).id = r.id) ∧
    (⟨1, 1, "hello", [("text", "hello")], 2⟩ : SearchResultItem).score
      ≤ (⟨2, 2, "", [], 1⟩ : SearchResultItem).score := by
  refine ⟨(c7_response_ranks [candA, candB] 5 0).1, ?_, ?_⟩
  · exact (c7_response_ranks [candA, candB] 5 0).2.1 0 _ (by decide)
  · exact (c7_response_ranks [candA, candB] 5 0).2.2 0 1 _ _
      (by decide) (by decide) (by decide)
